import Mathlib

/-!
Shallow embedding of the GuardianCam video-analysis job lifecycle:
the Express route handlers in `Backend/routes/fallDetection.js`
(`POST /analyze-video`, `GET /analysis/:analysisId`), the two
`PythonModelIntegration` wrappers (the fail-fast variant in
`Backend/utils/pythonModelIntegration.js` and the simulate-on-failure
variant), and the document-store records they manipulate.

Machine floats of the source are embedded as rationals (all the arithmetic
involved — parsing decimal literals, `min`, size scaling — is exact on the
values these claims touch); wall-clock timestamps (`new Date()`) are omitted
from the records since no claim depends on them.
-/

namespace GuardianCam

/-! ## String utilities (JS `String.prototype.includes`, regex fragments) -/

/-- `subAt needle hay i`: does `needle` occur in `hay` starting at index `i`? -/
def subAt (needle hay : List Char) (i : Nat) : Bool :=
  needle.isPrefixOf (hay.drop i)

/-- Index of the first occurrence of `needle` in `hay` (JS `String.match` /
`String.includes` search from the left). -/
def findSub (needle hay : List Char) : Option Nat :=
  (List.range (hay.length + 1)).find? (subAt needle hay)

/-- JS `line.includes(sub)`. -/
def containsStr (sub s : String) : Bool :=
  (findSub sub.toList s.toList).isSome

/-- JS whitespace (`\s`) as it can occur inside one line of split output. -/
def isJsWs (c : Char) : Bool := c = ' ' || c = '\t' || c = '\r'

/-- A character matched by the regex class `[\d.]`. -/
def isDigitOrDot (c : Char) : Bool := c.isDigit || c = '.'

/-- Decimal digits to a natural number. -/
def digitsToNat (cs : List Char) : Nat :=
  cs.foldl (fun a c => a * 10 + (c.toNat - 48)) 0

/-- JS `parseFloat` on a token drawn from `[\d.]+`: integer digits, then an
optional fraction after the first dot (parsing stops at a second dot, as
`parseFloat` does). Tokens with no digit at all (`"..."`) would give `NaN`
in JS; `NaN` has no rational counterpart, so such tokens are filtered out
by `labelToken` below requiring at least one digit. -/
def jsParseFloat (cs : List Char) : ℚ :=
  let intPart := cs.takeWhile Char.isDigit
  let rest := cs.drop intPart.length
  let frac :=
    match rest with
    | '.' :: tl => tl.takeWhile Char.isDigit
    | _ => []
  (digitsToNat intPart : ℚ) + (digitsToNat frac : ℚ) / (10 : ℚ) ^ frac.length

/-- The capture of `label` + `\s*` + a maximal run of characters in `cls`,
searched from the first occurrence of `label` in the line (the behaviour of
the source's `line.match(/Label:\s*(...)/)` on the lines it is applied to).
Returns `none` when the run is empty. -/
def labelToken (cls : Char → Bool) (label line : String) : Option (List Char) :=
  match findSub label.toList line.toList with
  | none => none
  | some i =>
      let after := (line.toList.drop (i + label.toList.length)).dropWhile isJsWs
      let tok := after.takeWhile cls
      if tok.isEmpty then none else some tok

/-! ## Data model -/

/-- `status` field of an `fall_analyses` document. -/
inductive JobStatus where
  | processing
  | completed
  | failed
deriving DecidableEq, Repr

/-- A model result object as produced by the integration wrappers and stored
under `result` on the job (the `timestamp` field, a wall-clock date, is
omitted). -/
structure ModelResult where
  fallDetected : Bool
  confidence : ℚ
  processingTime : ℚ
  frames : ℤ
  modelVersion : String
  simulation : Bool
deriving DecidableEq, Repr

/-- An `fall_analyses` document (wall-clock `createdAt`/`updatedAt` omitted). -/
structure JobRecord where
  userId : String
  videoPath : String
  videoName : String
  location : Option String
  description : Option String
  status : JobStatus
  result : Option ModelResult
  error : Option String
deriving DecidableEq, Repr

/-- An `alerts` document created by the analyze-video completion handler. -/
structure AlertRecord where
  userId : String
  analysisId : String
  kind : String
  severity : String
  message : String
  location : Option String
  status : String
deriving DecidableEq, Repr

/-- The slice of the Firestore state the job lifecycle touches: the
`fall_analyses` collection (id-keyed) and the `alerts` collection. -/
structure Store where
  jobs : List (String × JobRecord)
  alerts : List AlertRecord
deriving DecidableEq, Repr

/-- Document lookup in an id-keyed collection. -/
def lookupJob : List (String × JobRecord) → String → Option JobRecord
  | [], _ => none
  | p :: tl, id => if p.1 = id then some p.2 else lookupJob tl id

/-- Document update in an id-keyed collection. -/
def updateJobList (f : JobRecord → JobRecord) :
    List (String × JobRecord) → String → List (String × JobRecord)
  | [], _ => []
  | p :: tl, id =>
      (if p.1 = id then (p.1, f p.2) else p) :: updateJobList f tl id

/-- `db.collection("fall_analyses").doc(id).get()`. -/
def Store.findJob (st : Store) (id : String) : Option JobRecord :=
  lookupJob st.jobs id

/-- `analysisRef.update(...)` applied to document `id`. -/
def Store.updateJob (st : Store) (id : String) (f : JobRecord → JobRecord) :
    Store :=
  { st with jobs := updateJobList f st.jobs id }

/-- `db.collection("fall_analyses").add(...)` under a fresh id. -/
def Store.addJob (st : Store) (id : String) (j : JobRecord) : Store :=
  { st with jobs := (id, j) :: st.jobs }

/-- The alerts referencing job `id`. -/
def alertsFor (st : Store) (id : String) : List AlertRecord :=
  st.alerts.filter (fun a => a.analysisId == id)

/-! ## Output parser (fail-fast variant, `parsePythonOutput`) -/

/-- The source regex `/\{.*\}/s`: the span from the first opening brace to
the last closing brace, provided the latter is strictly after the former. -/
def braceSpanList (cs : List Char) : Option (List Char) :=
  match cs.findIdx? (· = '{'), cs.reverse.findIdx? (· = '}') with
  | some i, some jr =>
      let j := cs.length - 1 - jr
      if i < j then some ((cs.drop i).take (j - i + 1)) else none
  | _, _ => none

def braceSpan (s : String) : Option String :=
  (braceSpanList s.toList).map String.mk

/-- The zero-valued record the line-oriented fallback starts from (source:
the `results` initializer in `parsePythonOutput`). -/
def fallbackInit : ModelResult :=
  { fallDetected := false, confidence := 0, processingTime := 0, frames := 0
    modelVersion := "1.0.0", simulation := false }

/-- One iteration of the source's `for (const line of lines)` chain. -/
def applyLine (r : ModelResult) (line : String) : ModelResult :=
  if containsStr "Prediction:" line then
    { r with fallDetected := containsStr "Fall" line }
  else if containsStr "Confidence:" line then
    match labelToken isDigitOrDot "Confidence:" line with
    | some tok => { r with confidence := jsParseFloat tok }
    | none => r
  else if containsStr "Processing time:" line then
    match labelToken isDigitOrDot "Processing time:" line with
    | some tok => { r with processingTime := jsParseFloat tok }
    | none => r
  else if containsStr "Frames processed:" line then
    match labelToken Char.isDigit "Frames processed:" line with
    | some tok => { r with frames := (digitsToNat tok : ℤ) }
    | none => r
  else r

/-- JS `output.split('\n')` (structural recursion on the character list). -/
def splitNl : List Char → List (List Char)
  | [] => [[]]
  | c :: tl =>
      let r := splitNl tl
      if c = '\n' then [] :: r
      else
        match r with
        | h :: t => (c :: h) :: t
        | [] => [[c]]

/-- The line-oriented fallback: split on newlines and scan for the four
recognized labels, mutating the zero-valued defaults. -/
def lineFallback (output : String) : ModelResult :=
  ((splitNl output.toList).map String.mk).foldl applyLine fallbackInit

/-- Outcome of `parsePythonOutput`: either the object `JSON.parse` produced
from an embedded brace span (arbitrary shape `J`, since the source returns
it unchanged), or the line-fallback record. -/
inductive ParseOut (J : Type) where
  | json (j : J)
  | fallback (r : ModelResult)
deriving DecidableEq, Repr

/-- `parsePythonOutput` of the fail-fast variant. `jparse` stands for the
external `JSON.parse` (`none` = it throws); a throw is caught and re-thrown
as the parse-failure error. When no brace span is found the fallback scan
runs and always returns (it contains no throwing operation). -/
def parsePythonOutput {J : Type} (jparse : String → Option J)
    (output : String) : Except String (ParseOut J) :=
  match braceSpan output with
  | some s =>
      match jparse s with
      | some j => .ok (.json j)
      | none => .error "Failed to parse model output"
  | none => .ok (.fallback (lineFallback output))

/-! ## Fail-fast integration variant (`Backend/utils/pythonModelIntegration.js`)

`processVideo` is embedded in two pieces: the synchronous prefix
(`processVideoEntry`: busy guard and existence pre-checks, run before any
subprocess is spawned) and the asynchronous part (`runInvocation`: the
`close`/`error`/timeout handlers folded over the chronological sequence of
events observed after a successful spawn). -/

/-- What exists on disk when `processVideo` runs its `fs.existsSync` checks. -/
structure Env where
  videoExists : Bool
  scriptExists : Bool
deriving DecidableEq, Repr

/-- How the synchronous prefix of `processVideo` ends. -/
inductive StartResult where
  | busy
  | videoMissing
  | scriptMissing
  | spawned
deriving DecidableEq, Repr

/-- The rejection message each synchronous outcome carries (`none` = the
call proceeded to spawn). -/
def startErrorMessage : StartResult → Option String
  | .busy => some "Model is already processing another video"
  | .videoMissing => some "Video file not found"
  | .scriptMissing => some "Python model script not found"
  | .spawned => none

/-- The synchronous prefix of the fail-fast `processVideo`: reject when
`isProcessing` is set (leaving it set), otherwise set it, run the two
existence checks (clearing the flag again on their rejections), and spawn.
Returns the flag value after the call together with the outcome. -/
def processVideoEntry (isProcessing : Bool) (env : Env) :
    Bool × StartResult :=
  if isProcessing then (isProcessing, .busy)
  else if !env.videoExists then (false, .videoMissing)
  else if !env.scriptExists then (false, .scriptMissing)
  else (true, .spawned)

/-- An event observed by an in-flight invocation, in chronological order:
process exit (with accumulated stdout/stderr), a spawn `error` event, or
the 5-minute timer firing. -/
inductive PEvent where
  | close (code : ℤ) (stdout stderr : String)
  | spawnErr (msg : String)
  | timeout
deriving DecidableEq, Repr

/-- The timeout delay passed to `setTimeout` (milliseconds). -/
def timeoutMs : ℕ := 300000

/-- State of one in-flight invocation: the shared `isProcessing` flag, whether
`pythonProcess.kill()` was called, and how the promise settled (`none` while
pending; settling twice is a no-op on an already-settled promise). -/
structure InvState (J : Type) where
  isProcessing : Bool
  killed : Bool
  settled : Option (Except String (ParseOut J))
deriving Repr

/-- Resolve/reject: a no-op when the promise has already settled. -/
def settle {J : Type} (s : InvState J) (v : Except String (ParseOut J)) :
    InvState J :=
  match s.settled with
  | some _ => s
  | none => { s with settled := some v }

/-- The `close`, `error` and timeout handlers of the fail-fast
`processVideo`. -/
def handleEvent {J : Type} (jparse : String → Option J) (s : InvState J) :
    PEvent → InvState J
  | .close code stdout stderr =>
      let s := { s with isProcessing := false }
      if code ≠ 0 then
        settle s (.error ("Model processing failed: " ++ stderr))
      else
        match parsePythonOutput jparse stdout with
        | .ok r => settle s (.ok r)
        | .error _ => settle s (.error "Failed to parse model results")
  | .spawnErr msg =>
      settle { s with isProcessing := false }
        (.error ("Failed to start model: " ++ msg))
  | .timeout =>
      if s.isProcessing then
        settle { s with isProcessing := false, killed := true }
          (.error "Model processing timeout")
      else s

/-- Fold the handlers over the events following a spawn (initial state:
`isProcessing` set by the entry, nothing killed, promise pending). -/
def runInvocation {J : Type} (jparse : String → Option J)
    (events : List PEvent) : InvState J :=
  events.foldl (handleEvent jparse) ⟨true, false, none⟩

/-- A second `processVideo` call arriving while an invocation is in flight,
acting on the shared `isProcessing` flag: the busy branch performs no write
at all; the other branches write the flag as in `processVideoEntry`. -/
def entryDuringFlight {J : Type} (env : Env) (s : InvState J) :
    InvState J × StartResult :=
  if s.isProcessing then (s, .busy)
  else if !env.videoExists then ({ s with isProcessing := false }, .videoMissing)
  else if !env.scriptExists then ({ s with isProcessing := false }, .scriptMissing)
  else ({ s with isProcessing := true }, .spawned)

/-! ## Simulate-on-failure integration variant

The second `PythonModelIntegration` wrapper: no busy flag, no timeout, and
every failure path resolves with `simulateFallDetection` — except the
missing-script path, whose `return this.simulateFallDetection(...)` inside
the promise executor discards the value without calling `resolve`, leaving
the promise pending forever. -/

/-- JS `x || d` for an optional rational option field (`0` is falsy). -/
def jsOrQ (x : Option ℚ) (d : ℚ) : ℚ :=
  match x with
  | some v => if v = 0 then d else v
  | none => d

/-- JS `x || d` for an optional string field (`""` is falsy). -/
def jsOrStr (x : Option String) (d : String) : String :=
  match x with
  | some v => if v = "" then d else v
  | none => d

/-- JS `x || d` for an optional integer field (`0` is falsy). -/
def jsOrZ (x : Option ℤ) (d : ℤ) : ℤ :=
  match x with
  | some v => if v = 0 then d else v
  | none => d

/-- The `options` object passed to either variant's `processVideo`. -/
structure SimOptions where
  sensitivity : Option ℚ
  confidence : Option ℚ
deriving DecidableEq, Repr

/-- `simulateFallDetection`. `size` is `fs.statSync(videoPath).size` in
bytes; `r1`, `r2`, `r3` are the three `Math.random()` draws (each in
`[0,1)`), in evaluation order: fall decision, confidence, frame count. -/
def simulateFallDetection (size : ℚ) (opts : SimOptions)
    (r1 r2 r3 : ℚ) : ModelResult :=
  let sensitivity := jsOrQ opts.sensitivity (7/10)
  let confidence := jsOrQ opts.confidence (4/5)
  { fallDetected := decide (r1 > 1 - sensitivity)
    confidence :=
      if r1 > 1 - sensitivity then r2 * (1 - confidence) + confidence
      else r2 * confidence
    processingTime := min (size / 1024 / 1024 * 1000) 5000
    frames := ⌊r3 * 300⌋ + 100
    modelVersion := "simulation-1.0.0", simulation := true }

/-- How the synchronous prefix of the simulate-variant `processVideo` ends.
It consults no in-flight state: there is no busy guard in this variant. -/
inductive SimEntry where
  | rejectStatError
  | pendingForever
  | spawned
deriving DecidableEq, Repr

/-- Synchronous prefix of the simulate-variant `processVideo`: a missing
video throws, the catch calls `simulateFallDetection`, and its `statSync`
on the missing file throws out of the executor, rejecting the promise; a
missing script returns the simulated value without resolving (the promise
stays pending); otherwise the subprocess is spawned. -/
def simProcessVideoEntry (env : Env) : SimEntry :=
  if !env.videoExists then .rejectStatError
  else if !env.scriptExists then .pendingForever
  else .spawned

/-- The object shape the simulate variant reads off `JSON.parse(stdout)`
(each field may be absent). -/
structure SimJson where
  fall_detected : Option Bool
  confidence : Option ℚ
  model_version : Option String
  processing_time : Option ℚ
  frames_processed : Option ℤ
deriving DecidableEq, Repr

/-- The field-by-field `result.x || default` mapping applied to a parsed
payload in the simulate variant's `close` handler. -/
def mapSimJson (j : SimJson) : ModelResult :=
  { fallDetected := j.fall_detected.getD false
    confidence := jsOrQ j.confidence 0
    processingTime := jsOrQ j.processing_time 0
    frames := jsOrZ j.frames_processed 0
    modelVersion := jsOrStr j.model_version "1.0.0"
    simulation := false }

/-- A settling event for a spawned simulate-variant invocation (this variant
installs no timeout). -/
inductive SimEvent where
  | close (code : ℤ) (stdout : String)
  | spawnErr
deriving DecidableEq, Repr

/-- The simulate variant's `close`/`error` handlers: non-zero exit, parse
failure and spawn error all resolve with the simulated result; only a clean
exit with parseable stdout resolves with the mapped payload. `jparse` stands
for `JSON.parse` applied to the whole stdout. -/
def simSettle (jparse : String → Option SimJson) (size : ℚ)
    (opts : SimOptions) (r1 r2 r3 : ℚ) : SimEvent → ModelResult
  | .close code stdout =>
      if code ≠ 0 then simulateFallDetection size opts r1 r2 r3
      else
        match jparse stdout with
        | some j => mapSimJson j
        | none => simulateFallDetection size opts r1 r2 r3
  | .spawnErr => simulateFallDetection size opts r1 r2 r3

/-! ## Reconciliation (`POST /analyze-video` `.then`/`.catch` continuation) -/

/-- The alert document the completion handler adds on a detected fall. -/
def fallAlert (analysisId userId : String) (location : Option String) :
    AlertRecord :=
  { userId := userId, analysisId := analysisId, kind := "fall_detected"
    severity := "high"
    message := "Potential fall detected in video analysis"
    location := location, status := "active" }

/-- The `.then` continuation: unconditionally set `status = completed` and
attach `result`; then, when `result.fallDetected`, add one alert with
`severity: "high"` referencing the job id. No check of the job's current
status is performed. -/
def reconcileSuccess (analysisId userId : String) (location : Option String)
    (result : ModelResult) (st : Store) : Store :=
  let st := st.updateJob analysisId
    (fun j => { j with status := .completed, result := some result })
  if result.fallDetected then
    { st with alerts := st.alerts ++ [fallAlert analysisId userId location] }
  else st

/-- The `.catch` continuation: set `status = failed` and store the rejection
reason's `error.message` on the job. -/
def reconcileFailure (analysisId : String) (errMsg : String) (st : Store) :
    Store :=
  st.updateJob analysisId
    (fun j => { j with status := .failed, error := some errMsg })

/-- One terminal outcome delivered to the continuation: the resolved result
or the rejection message. -/
def applyOutcome (analysisId userId : String) (location : Option String)
    (outcome : Except String ModelResult) (st : Store) : Store :=
  match outcome with
  | .ok r => reconcileSuccess analysisId userId location r st
  | .error e => reconcileFailure analysisId e st

/-! ## Submission (`POST /analyze-video`) -/

/-- The uploaded multipart file as multer presents it (`originalExt` is
`path.extname(file.originalname).toLowerCase()`). -/
structure UploadedFile where
  originalExt : String
  mimetype : String
  path : String
  originalname : String
deriving DecidableEq, Repr

/-- The regex `/mp4|avi|mov|mkv|webm/` tested against a string: some
alternative occurs somewhere in it. -/
def videoTypeTest (s : String) : Bool :=
  containsStr "mp4" s || containsStr "avi" s || containsStr "mov" s ||
    containsStr "mkv" s || containsStr "webm" s

/-- multer's `fileFilter`: both the lowercased extension and the mimetype
must match the video regex. -/
def fileFilterAccepts (f : UploadedFile) : Bool :=
  videoTypeTest f.originalExt && videoTypeTest f.mimetype

/-- How the submission pipeline responds (HTTP status attached below). -/
inductive SubmitOutcome where
  | badRequest (error : String)
  | accepted (analysisId : String)
deriving DecidableEq, Repr

/-- HTTP status of a submission response. -/
def submitStatus : SubmitOutcome → ℕ
  | .badRequest _ => 400
  | .accepted _ => 202

/-- Modelled from the spec: the error-handling middleware
(`middleware/errorHandler`, required by the server entry point but not
present under the sources) turns an upload rejection raised by multer's
`fileFilter` — invalid media — into a `400` response: "`400` on
missing/invalid media". -/
def errorHandlerOutcome (msg : String) : SubmitOutcome :=
  .badRequest msg

/-- The synchronous part of `POST /analyze-video`: multer's `fileFilter`
runs first (its rejection goes to the error middleware and no handler code
runs), then field validation, then the missing-file check; only then is the
job document added in `processing` state under the fresh id `newId` and
`202` returned. The model returns before the asynchronous continuation is
applied: the handler does not wait on `processVideo`. -/
def analyzeVideoSubmit (file : Option UploadedFile) (validationOk : Bool)
    (userId : String) (location description : Option String)
    (newId : String) (st : Store) : SubmitOutcome × Store :=
  match file with
  | some f =>
      if !fileFilterAccepts f then
        (errorHandlerOutcome "Only video files are allowed", st)
      else if !validationOk then (.badRequest "Validation failed", st)
      else
        (.accepted newId, st.addJob newId
          { userId := userId, videoPath := f.path, videoName := f.originalname
            location := location, description := description
            status := .processing, result := none, error := none })
  | none =>
      if !validationOk then (.badRequest "Validation failed", st)
      else (.badRequest "No video file provided", st)

/-! ## Read (`GET /analysis/:analysisId`) -/

/-- The three ways the read endpoint responds. -/
inductive GetAnalysisResponse where
  | notFound
  | accessDenied
  | ok (analysis : JobRecord)
deriving DecidableEq, Repr

/-- `GET /analysis/:analysisId`: 404 when the document is absent, 403 when
`analysisData.userId !== userId`, otherwise the document. -/
def getAnalysisHandler (analysisId userId : String) (st : Store) :
    GetAnalysisResponse :=
  match st.findJob analysisId with
  | none => .notFound
  | some j => if j.userId ≠ userId then .accessDenied else .ok j

/-- HTTP status of a read response. -/
def getAnalysisStatus : GetAnalysisResponse → ℕ
  | .notFound => 404
  | .accessDenied => 403
  | .ok _ => 200

/-- The job data a read response carries (the 404 and 403 bodies contain
only fixed strings, no document fields). -/
def responseData : GetAnalysisResponse → Option JobRecord
  | .ok j => some j
  | _ => none

/-! ## Concrete fixtures used by witnesses and counterexamples -/

/-- A `processing` job owned by `owner`, as the submission handler creates
it. -/
def sampleJob (owner : String) : JobRecord :=
  { userId := owner, videoPath := "uploads/v.mp4", videoName := "v.mp4"
    location := none, description := none, status := .processing
    result := none, error := none }

/-- A store holding exactly one fresh job and no alerts. -/
def jobStore (id owner : String) : Store := ⟨[(id, sampleJob owner)], []⟩

/-- A completed-analysis result with the fall flag set. -/
def fallResult : ModelResult :=
  { fallDetected := true, confidence := 9/10, processingTime := 100
    frames := 200, modelVersion := "1.0.0", simulation := false }

/-- An uploaded file both of whose type checks pass the video regex. -/
def mp4File : UploadedFile :=
  { originalExt := ".mp4", mimetype := "video/mp4"
    path := "uploads/a.mp4", originalname := "a.mp4" }

/-- An uploaded file rejected by the video regex. -/
def textFile : UploadedFile :=
  { originalExt := ".txt", mimetype := "text/plain"
    path := "uploads/a.txt", originalname := "a.txt" }

/-! ## Store lemmas -/

theorem lookupJob_updateJobList (f : JobRecord → JobRecord)
    (l : List (String × JobRecord)) (id : String) :
    lookupJob (updateJobList f l id) id = (lookupJob l id).map f := by
  induction l with
  | nil => rfl
  | cons p tl ih =>
      by_cases h : p.1 = id
      · simp [lookupJob, updateJobList, h]
      · simp [lookupJob, updateJobList, h, ih]

theorem Store.findJob_updateJob (st : Store) (id : String)
    (f : JobRecord → JobRecord) :
    (st.updateJob id f).findJob id = (st.findJob id).map f := by
  simp [Store.updateJob, Store.findJob, lookupJob_updateJobList]

theorem Store.findJob_addJob (st : Store) (id : String) (j : JobRecord) :
    (st.addJob id j).findJob id = some j := by
  simp [Store.addJob, Store.findJob, lookupJob]

theorem alertsFor_reconcileSuccess (st : Store) (id u : String)
    (loc : Option String) (r : ModelResult) :
    alertsFor (reconcileSuccess id u loc r st) id =
      alertsFor st id ++
        (if r.fallDetected then [fallAlert id u loc] else []) := by
  by_cases h : r.fallDetected
  · simp [reconcileSuccess, alertsFor, Store.updateJob, h, List.filter_append,
      fallAlert]
  · simp [reconcileSuccess, alertsFor, Store.updateJob, h]

theorem alertsFor_reconcileFailure (st : Store) (id e : String) :
    alertsFor (reconcileFailure id e st) id = alertsFor st id := rfl

theorem findJob_reconcileSuccess (st : Store) (id u : String)
    (loc : Option String) (r : ModelResult) :
    (reconcileSuccess id u loc r st).findJob id =
      (st.findJob id).map
        (fun j => { j with status := .completed, result := some r }) := by
  by_cases h : r.fallDetected <;>
    simp [reconcileSuccess, h, Store.findJob, Store.updateJob,
      lookupJob_updateJobList]

theorem findJob_reconcileFailure (st : Store) (id e : String) :
    (reconcileFailure id e st).findJob id =
      (st.findJob id).map
        (fun j => { j with status := .failed, error := some e }) := by
  simp [reconcileFailure, Store.findJob_updateJob]

/-- Once an invocation's promise is settled, its process killed and its flag
cleared, no later event changes its state: `settle` is a no-op on a settled
promise and the timeout handler is guarded by `isProcessing`. -/
theorem handleEvent_frozen (J : Type) (jparse : String → Option J) (k : Bool)
    (v : Except String (ParseOut J)) (e : PEvent) :
    handleEvent jparse ⟨false, k, some v⟩ e = ⟨false, k, some v⟩ := by
  cases e with
  | close code stdout stderr =>
      simp only [handleEvent]
      split
      · rfl
      · split <;> rfl
  | spawnErr msg => rfl
  | timeout => rfl

theorem foldl_frozen (J : Type) (jparse : String → Option J)
    (l : List PEvent) (k : Bool) (v : Except String (ParseOut J)) :
    l.foldl (handleEvent jparse) ⟨false, k, some v⟩ = ⟨false, k, some v⟩ := by
  induction l with
  | nil => rfl
  | cons e tl ih => rw [List.foldl_cons, handleEvent_frozen]; exact ih

/-! ## Claim theorems -/

/-- C1, counterexample: the claimed once-only/idempotent terminal write is
false on the code at a concrete input. For job "a1" with a fall-detected
result, applying the success continuation twice creates two alerts (no
`status != processing` detection exists), and applying the failure
continuation to the already-completed job overwrites the terminal status
with a different outcome. -/
theorem C1_counterexample :
    (alertsFor (reconcileSuccess "a1" "u1" none fallResult
        (reconcileSuccess "a1" "u1" none fallResult (jobStore "a1" "u1")))
      "a1").length = 2 ∧
    ((reconcileFailure "a1" "boom"
        (reconcileSuccess "a1" "u1" none fallResult
          (jobStore "a1" "u1"))).findJob "a1").map JobRecord.status =
      some .failed :=
  ⟨rfl, rfl⟩

/-- C1, amended: the reconciliation continuation performs no idempotence
check. Re-applying the success continuation with the same result leaves the
job record unchanged (the identical terminal write is re-applied) but
appends one more alert whenever `fallDetected` is set, and the failure
continuation applied after success overwrites the completed job to
`failed`. -/
theorem C1_reapply (analysisId userId : String) (location : Option String)
    (r : ModelResult) (e : String) (st : Store) :
    (reconcileSuccess analysisId userId location r
        (reconcileSuccess analysisId userId location r st)).findJob
      analysisId =
      (reconcileSuccess analysisId userId location r st).findJob analysisId ∧
    (alertsFor (reconcileSuccess analysisId userId location r
        (reconcileSuccess analysisId userId location r st))
      analysisId).length =
      (alertsFor (reconcileSuccess analysisId userId location r st)
          analysisId).length + (if r.fallDetected then 1 else 0) ∧
    ((reconcileFailure analysisId e
        (reconcileSuccess analysisId userId location r st)).findJob
        analysisId).map JobRecord.status =
      (st.findJob analysisId).map (fun _ => .failed) := by
  refine ⟨?_, ?_, ?_⟩
  · rw [findJob_reconcileSuccess, findJob_reconcileSuccess]
    cases st.findJob analysisId <;> rfl
  · rw [alertsFor_reconcileSuccess, alertsFor_reconcileSuccess]
    by_cases h : r.fallDetected <;> simp [h]
  · rw [findJob_reconcileFailure, findJob_reconcileSuccess]
    cases st.findJob analysisId <;> rfl

/-- C2: for a job with no pre-existing alerts, one application of the
terminal outcome creates an alert exactly when the outcome is a success
whose `fallDetected` is true; the alert created is unique, references the
job id, and carries severity "high" and kind "fall_detected". -/
theorem C2_alert_iff (analysisId userId : String) (location : Option String)
    (outcome : Except String ModelResult) (st : Store)
    (h : alertsFor st analysisId = []) :
    alertsFor (applyOutcome analysisId userId location outcome st)
        analysisId =
      (match outcome with
       | .ok r =>
           if r.fallDetected then [fallAlert analysisId userId location]
           else []
       | .error _ => []) ∧
    (fallAlert analysisId userId location).analysisId = analysisId ∧
    (fallAlert analysisId userId location).severity = "high" ∧
    (fallAlert analysisId userId location).kind = "fall_detected" := by
  refine ⟨?_, rfl, rfl, rfl⟩
  cases outcome with
  | ok r => simp [applyOutcome, alertsFor_reconcileSuccess, h]
  | error e => simp [applyOutcome, alertsFor_reconcileFailure, h]

/-- C2, witness: a fall-detected success outcome on a fresh job yields
exactly the one high-severity alert referencing the job. -/
theorem C2_witness :
    alertsFor (applyOutcome "a1" "u1" none (.ok fallResult)
        (jobStore "a1" "u1")) "a1" = [fallAlert "a1" "u1" none] ∧
    (fallAlert "a1" "u1" none).severity = "high" ∧
    (fallAlert "a1" "u1" none).analysisId = "a1" :=
  ⟨(C2_alert_iff "a1" "u1" none (.ok fallResult) (jobStore "a1" "u1")
      rfl).1,
   (C2_alert_iff "a1" "u1" none (.ok fallResult) (jobStore "a1" "u1")
      rfl).2.2.1,
   (C2_alert_iff "a1" "u1" none (.ok fallResult) (jobStore "a1" "u1")
      rfl).2.1⟩

/-- C3: a submission whose file passes the video filter (with valid fields)
is answered `202` with the fresh job id, and that job is readable in the
returned store with `status = processing` — the continuation has not run,
the handler does not wait on it; a missing file or a filter-rejected file
is answered `400` with the store unchanged (no job created). The
invalid-media `400` flows through the error middleware modelled from the
spec. -/
theorem C3_submission (fOk fBad : UploadedFile) (userId : String)
    (location description : Option String) (newId : String) (st : Store)
    (hacc : fileFilterAccepts fOk = true)
    (hrej : fileFilterAccepts fBad = false) :
    (analyzeVideoSubmit (some fOk) true userId location description newId
        st).1 = .accepted newId ∧
    submitStatus
        (analyzeVideoSubmit (some fOk) true userId location description newId
          st).1 = 202 ∧
    (((analyzeVideoSubmit (some fOk) true userId location description newId
        st).2).findJob newId).map JobRecord.status = some .processing ∧
    analyzeVideoSubmit none true userId location description newId st =
      (.badRequest "No video file provided", st) ∧
    analyzeVideoSubmit (some fBad) true userId location description newId
        st = (.badRequest "Only video files are allowed", st) := by
  refine ⟨?_, ?_, ?_, rfl, ?_⟩
  · simp [analyzeVideoSubmit, hacc]
  · simp [analyzeVideoSubmit, hacc, submitStatus]
  · simp [analyzeVideoSubmit, hacc, Store.findJob_addJob]
  · simp [analyzeVideoSubmit, hrej, errorHandlerOutcome]

/-- C3, witness: an mp4 upload is accepted with 202 and readable as
processing; no file, and a text file, each give 400 with no job. -/
theorem C3_witness :
    (analyzeVideoSubmit (some mp4File) true "u1" none none "a1"
        ⟨[], []⟩).1 = .accepted "a1" ∧
    submitStatus
        (analyzeVideoSubmit (some mp4File) true "u1" none none "a1"
          ⟨[], []⟩).1 = 202 ∧
    (((analyzeVideoSubmit (some mp4File) true "u1" none none "a1"
        ⟨[], []⟩).2).findJob "a1").map JobRecord.status =
      some .processing ∧
    analyzeVideoSubmit none true "u1" none none "a1" ⟨[], []⟩ =
      (.badRequest "No video file provided", ⟨[], []⟩) ∧
    analyzeVideoSubmit (some textFile) true "u1" none none "a1" ⟨[], []⟩ =
      (.badRequest "Only video files are allowed", ⟨[], []⟩) :=
  C3_submission mp4File textFile "u1" none none "a1" ⟨[], []⟩ rfl rfl

/-- C4, counterexample: the simulate variant's `processVideo` has no busy
guard — its synchronous prefix is a function of the filesystem alone,
consulting no in-flight state, and with video and script present it spawns
a new subprocess; a call made while another invocation is in flight is
therefore not rejected with a Busy condition. -/
theorem C4_counterexample : simProcessVideoEntry ⟨true, true⟩ = .spawned :=
  rfl

/-- C4, amended: in the fail-fast variant, a `processVideo` call arriving at
any point while the in-flight invocation still holds `isProcessing` is
rejected with the distinct busy error, writes nothing, and the in-flight
invocation's eventual outcome is exactly what it would have been without
the rejected call. -/
theorem C4_busy (J : Type) (jparse : String → Option J) (env : Env) (k : ℕ)
    (events : List PEvent)
    (h : (runInvocation jparse (events.take k)).isProcessing = true) :
    entryDuringFlight env (runInvocation jparse (events.take k)) =
      (runInvocation jparse (events.take k), .busy) ∧
    startErrorMessage .busy =
      some "Model is already processing another video" ∧
    (events.drop k).foldl (handleEvent jparse)
        (entryDuringFlight env (runInvocation jparse (events.take k))).1 =
      runInvocation jparse events := by
  have h1 : entryDuringFlight env (runInvocation jparse (events.take k)) =
      (runInvocation jparse (events.take k), .busy) := by
    simp [entryDuringFlight, h]
  refine ⟨h1, rfl, ?_⟩
  rw [h1]
  simp only [runInvocation]
  rw [← List.foldl_append, List.take_append_drop]

/-- C4, witness: the busy rejection at the start of an in-flight invocation
(its flag freshly set, no events yet). -/
theorem C4_busy_witness :
    entryDuringFlight ⟨true, true⟩
        (runInvocation (J := Unit) (fun _ => none)
          (List.take 0 ([] : List PEvent))) =
      (runInvocation (J := Unit) (fun _ => none)
        (List.take 0 ([] : List PEvent)), .busy) ∧
    startErrorMessage .busy =
      some "Model is already processing another video" ∧
    (List.drop 0 ([] : List PEvent)).foldl
        (handleEvent (J := Unit) (fun _ => none))
        (entryDuringFlight ⟨true, true⟩
          (runInvocation (J := Unit) (fun _ => none)
            (List.take 0 ([] : List PEvent)))).1 =
      runInvocation (J := Unit) (fun _ => none) [] :=
  C4_busy Unit (fun _ => none) ⟨true, true⟩ 0 [] rfl

/-- C5, counterexample: on output matching neither format ("hello world":
no brace span, no recognized label), `parsePythonOutput` does not fail — it
returns the zero-valued default record (fall flag false, confidence 0,
processing time 0, frames 0), contradicting the claim that such output is
a parse failure. -/
theorem C5_counterexample :
    parsePythonOutput (J := Unit) (fun _ => none) "hello world" =
      .ok (.fallback fallbackInit) ∧
    fallbackInit =
      { fallDetected := false, confidence := 0, processingTime := 0
        frames := 0, modelVersion := "1.0.0", simulation := false } :=
  ⟨rfl, rfl⟩

/-- C5, amended: the parser tries the strategies in the declared order —
an embedded brace span that JSON-parses wins; a brace span that fails
JSON.parse is the only parse failure; with no brace span the line-oriented
fallback always returns, yielding the zero-valued defaults when no
recognized label occurs. -/
theorem C5_parse_order (J : Type) (jparse : String → Option J)
    (output : String) :
    (∀ s j, braceSpan output = some s → jparse s = some j →
      parsePythonOutput jparse output = .ok (.json j)) ∧
    (∀ s, braceSpan output = some s → jparse s = none →
      parsePythonOutput jparse output =
        .error "Failed to parse model output") ∧
    (braceSpan output = none →
      parsePythonOutput jparse output =
        .ok (.fallback (lineFallback output))) := by
  refine ⟨?_, ?_, ?_⟩
  · intro s j hs hj; simp [parsePythonOutput, hs, hj]
  · intro s hs hj; simp [parsePythonOutput, hs, hj]
  · intro h; simp [parsePythonOutput, h]

/-- C6: a subprocess exiting 1 with stderr "model error" settles the
promise with the message "Model processing failed: model error" — the raw
stderr is embedded verbatim — and the catch continuation stores exactly
that message as the failed job's user-visible `error`. This exhibits the
code bug the claim's no-stderr-leakage property rules out. -/
theorem C6_stderr_leak :
    (runInvocation (J := Unit) (fun _ => none)
        [.close 1 "" "model error"]).settled =
      some (.error "Model processing failed: model error") ∧
    containsStr "model error" "Model processing failed: model error" = true ∧
    ((reconcileFailure "a1" "Model processing failed: model error"
        (jobStore "a1" "u1")).findJob "a1").map
      (fun j => (j.status, j.error)) =
      some (.failed, some "Model processing failed: model error") :=
  ⟨rfl, rfl, rfl⟩

/-- C7: the timer constant is 5 minutes, and when the timeout event is the
first the invocation observes (the subprocess has not exited), the process
is killed, the promise rejects with the timeout error, no later event
changes either fact, and the catch continuation drives the job to
`failed`. -/
theorem C7_timeout (J : Type) (jparse : String → Option J)
    (rest : List PEvent) (analysisId : String) (st : Store) :
    timeoutMs = 5 * 60 * 1000 ∧
    (runInvocation jparse (.timeout :: rest)).killed = true ∧
    (runInvocation jparse (.timeout :: rest)).settled =
      some (.error "Model processing timeout") ∧
    ((reconcileFailure analysisId "Model processing timeout" st).findJob
        analysisId).map JobRecord.status =
      (st.findJob analysisId).map (fun _ => .failed) := by
  have h0 : runInvocation jparse (PEvent.timeout :: rest) =
      (⟨false, true, some (.error "Model processing timeout")⟩ :
        InvState J) := by
    rw [runInvocation, List.foldl_cons]
    exact foldl_frozen J jparse rest true _
  refine ⟨rfl, by rw [h0], by rw [h0], ?_⟩
  rw [findJob_reconcileFailure]
  cases st.findJob analysisId <;> rfl

/-- C8, counterexample: in the simulate variant, a missing model script
leaves the promise pending forever (the simulated value is computed but
never resolved), so no result reaches the job; and the fallback is not
deterministic — identical media size and options yield different
fall-detected flags under different `Math.random` draws. -/
theorem C8_counterexample :
    simProcessVideoEntry ⟨true, false⟩ = .pendingForever ∧
    (simulateFallDetection 1048576 ⟨none, none⟩ (9/10) 0 0).fallDetected =
      true ∧
    (simulateFallDetection 1048576 ⟨none, none⟩ (1/10) 0 0).fallDetected =
      false := by
  refine ⟨rfl, ?_, ?_⟩
  · simp only [simulateFallDetection, jsOrQ, decide_eq_true_eq]
    norm_num
  · simp only [simulateFallDetection, jsOrQ, decide_eq_false_iff_not]
    norm_num

/-- C8, amended: for a spawn error, a non-zero exit, or a parse failure,
the simulate variant resolves with the (randomized) fallback result, which
is structurally valid — marked `simulation = true`, confidence in `[0,1]`,
processing time `min(sizeMB*1000, 5000)` derived from the media size,
frame count in `[100,399]` — and reconciliation then completes the job
rather than failing it. -/
theorem C8_fallback (jparse : String → Option SimJson) (size : ℚ)
    (opts : SimOptions) (r1 r2 r3 : ℚ) (e : SimEvent)
    (analysisId userId : String) (location : Option String) (st : Store)
    (hr2a : 0 ≤ r2) (hr2b : r2 < 1) (hr3a : 0 ≤ r3) (hr3b : r3 < 1)
    (hconf : ∀ v, opts.confidence = some v → 0 ≤ v ∧ v ≤ 1)
    (hfail : e = .spawnErr ∨ (∃ c s, c ≠ 0 ∧ e = .close c s) ∨
      (∃ s, jparse s = none ∧ e = .close 0 s)) :
    simSettle jparse size opts r1 r2 r3 e =
      simulateFallDetection size opts r1 r2 r3 ∧
    (simulateFallDetection size opts r1 r2 r3).simulation = true ∧
    (simulateFallDetection size opts r1 r2 r3).modelVersion =
      "simulation-1.0.0" ∧
    0 ≤ (simulateFallDetection size opts r1 r2 r3).confidence ∧
    (simulateFallDetection size opts r1 r2 r3).confidence ≤ 1 ∧
    (simulateFallDetection size opts r1 r2 r3).processingTime =
      min (size / 1024 / 1024 * 1000) 5000 ∧
    100 ≤ (simulateFallDetection size opts r1 r2 r3).frames ∧
    (simulateFallDetection size opts r1 r2 r3).frames ≤ 399 ∧
    ((reconcileSuccess analysisId userId location
        (simulateFallDetection size opts r1 r2 r3) st).findJob
        analysisId).map JobRecord.status =
      (st.findJob analysisId).map (fun _ => .completed) := by
  have hc : 0 ≤ jsOrQ opts.confidence (4/5) ∧
      jsOrQ opts.confidence (4/5) ≤ 1 := by
    cases ho : opts.confidence with
    | none => norm_num [jsOrQ]
    | some v =>
        rcases hconf v ho with ⟨h1, h2⟩
        by_cases hv : v = 0
        · norm_num [jsOrQ, hv]
        · simp only [jsOrQ, hv, if_false]
          exact ⟨h1, h2⟩
  have hsettle : simSettle jparse size opts r1 r2 r3 e =
      simulateFallDetection size opts r1 r2 r3 := by
    rcases hfail with h | ⟨c, s, hc0, h⟩ | ⟨s, hj, h⟩ <;> subst h
    · rfl
    · simp [simSettle, hc0]
    · simp [simSettle, hj]
  have hconfBounds :
      0 ≤ (simulateFallDetection size opts r1 r2 r3).confidence ∧
      (simulateFallDetection size opts r1 r2 r3).confidence ≤ 1 := by
    simp only [simulateFallDetection]
    by_cases h : r1 > 1 - jsOrQ opts.sensitivity (7/10)
    · simp only [h, if_true]
      constructor
      · nlinarith [hc.1, hc.2]
      · nlinarith [hc.1, hc.2]
    · simp only [h, if_false]
      constructor
      · nlinarith [hc.1, hc.2]
      · nlinarith [hc.1, hc.2]
  have hfloor1 : (0:ℤ) ≤ ⌊r3 * 300⌋ := by
    apply Int.floor_nonneg.mpr
    positivity
  have hfloor2 : ⌊r3 * 300⌋ < 300 := by
    rw [Int.floor_lt]
    push_cast
    nlinarith
  refine ⟨hsettle, rfl, rfl, hconfBounds.1, hconfBounds.2, rfl, ?_, ?_, ?_⟩
  · show (100:ℤ) ≤ ⌊r3 * 300⌋ + 100
    omega
  · show ⌊r3 * 300⌋ + 100 ≤ 399
    omega
  · rw [findJob_reconcileSuccess]
    cases st.findJob analysisId <;> rfl

/-- C8, witness: a spawn-error attempt with zero draws on a fresh job
resolves with the simulated result and completes the job. -/
theorem C8_witness :
    simSettle (fun _ => none) 0 ⟨none, none⟩ 0 0 0 .spawnErr =
      simulateFallDetection 0 ⟨none, none⟩ 0 0 0 ∧
    (simulateFallDetection 0 ⟨none, none⟩ 0 0 0).simulation = true ∧
    0 ≤ (simulateFallDetection 0 ⟨none, none⟩ 0 0 0).confidence ∧
    (simulateFallDetection 0 ⟨none, none⟩ 0 0 0).confidence ≤ 1 ∧
    100 ≤ (simulateFallDetection 0 ⟨none, none⟩ 0 0 0).frames ∧
    ((reconcileSuccess "a1" "u1" none
        (simulateFallDetection 0 ⟨none, none⟩ 0 0 0)
        (jobStore "a1" "u1")).findJob "a1").map JobRecord.status =
      (Store.findJob (jobStore "a1" "u1") "a1").map
        (fun _ => .completed) := by
  have h := C8_fallback (fun _ => none) 0 ⟨none, none⟩ 0 0 0 .spawnErr
    "a1" "u1" none (jobStore "a1" "u1") le_rfl one_pos le_rfl one_pos
    (fun v hv => by cases hv) (Or.inl rfl)
  exact ⟨h.1, h.2.1, h.2.2.2.1, h.2.2.2.2.1, h.2.2.2.2.2.2.1,
    h.2.2.2.2.2.2.2.2⟩

/-- C9, counterexample: fetching another user's job returns 403 while an
unknown id returns 404 — the two status codes differ, so a caller can
distinguish "not found" from "not yours", contradicting the claim's
never-distinguish clause. -/
theorem C9_counterexample :
    getAnalysisHandler "a1" "userA" (jobStore "a1" "userB") =
      .accessDenied ∧
    getAnalysisHandler "missing" "userA" (jobStore "a1" "userB") =
      .notFound ∧
    getAnalysisStatus
        (getAnalysisHandler "a1" "userA" (jobStore "a1" "userB")) = 403 ∧
    getAnalysisStatus
        (getAnalysisHandler "missing" "userA" (jobStore "a1" "userB")) =
      404 ∧
    (403 : ℕ) ≠ 404 :=
  ⟨rfl, rfl, rfl, rfl, by decide⟩

/-- C9, amended: an unknown id yields 404; an owner mismatch yields 403
with none of the job's document data in the response; the owner receives
the document. (The 404/403 split itself distinguishes the two cases to the
caller.) -/
theorem C9_owner_scope (analysisId userId : String) (st : Store) :
    (st.findJob analysisId = none →
      getAnalysisHandler analysisId userId st = .notFound ∧
      responseData (getAnalysisHandler analysisId userId st) = none ∧
      getAnalysisStatus (getAnalysisHandler analysisId userId st) = 404) ∧
    (∀ j, st.findJob analysisId = some j → j.userId ≠ userId →
      getAnalysisHandler analysisId userId st = .accessDenied ∧
      responseData (getAnalysisHandler analysisId userId st) = none ∧
      getAnalysisStatus (getAnalysisHandler analysisId userId st) = 403) ∧
    (∀ j, st.findJob analysisId = some j → j.userId = userId →
      getAnalysisHandler analysisId userId st = .ok j) := by
  refine ⟨?_, ?_, ?_⟩
  · intro h
    simp [getAnalysisHandler, h, responseData, getAnalysisStatus]
  · intro j hj hne
    simp [getAnalysisHandler, hj, hne, responseData, getAnalysisStatus]
  · intro j hj he
    simp [getAnalysisHandler, hj, he]

/-- C10: in the fail-fast variant, when the video or the script is missing
the call is rejected (with the matching message) before any subprocess is
spawned, the `isProcessing` flag is false after the rejection, and a
subsequent call on the same instance is not rejected as busy. -/
theorem C10_precheck (env env2 : Env)
    (h : env.videoExists = false ∨ env.scriptExists = false) :
    (processVideoEntry false env).2 ≠ .spawned ∧
    (processVideoEntry false env).2 ≠ .busy ∧
    (processVideoEntry false env).1 = false ∧
    (env.videoExists = false →
      (processVideoEntry false env).2 = .videoMissing ∧
      startErrorMessage (processVideoEntry false env).2 =
        some "Video file not found") ∧
    (env.videoExists = true → env.scriptExists = false →
      (processVideoEntry false env).2 = .scriptMissing) ∧
    (processVideoEntry (processVideoEntry false env).1 env2).2 ≠ .busy := by
  rcases env with ⟨v, s⟩
  rcases env2 with ⟨v2, s2⟩
  cases v <;> cases s <;> cases v2 <;> cases s2 <;>
    simp_all [processVideoEntry, startErrorMessage]

/-- C10, witness: a missing video with the script present is rejected, the
flag is clear, and a following call with everything present is not busy
-rejected. -/
theorem C10_witness :
    (processVideoEntry false ⟨false, true⟩).2 ≠ .spawned ∧
    (processVideoEntry false ⟨false, true⟩).2 ≠ .busy ∧
    (processVideoEntry false ⟨false, true⟩).1 = false ∧
    ((⟨false, true⟩ : Env).videoExists = false →
      (processVideoEntry false ⟨false, true⟩).2 = .videoMissing ∧
      startErrorMessage (processVideoEntry false ⟨false, true⟩).2 =
        some "Video file not found") ∧
    ((⟨false, true⟩ : Env).videoExists = true →
      (⟨false, true⟩ : Env).scriptExists = false →
      (processVideoEntry false ⟨false, true⟩).2 = .scriptMissing) ∧
    (processVideoEntry (processVideoEntry false ⟨false, true⟩).1
      ⟨true, true⟩).2 ≠ .busy :=
  C10_precheck ⟨false, true⟩ ⟨true, true⟩ (Or.inl rfl)

end GuardianCam
